import Mathlib

/-!
Shallow embedding of `src/lib/step_functions_stack.py` (class `StepFunctionsStack`).

The stack builds, at deployment time, a fixed AWS Step Functions workflow
graph, three Lambda functions with their environments and IAM role policies,
one SNS topic, one Fail and one Succeed terminal state.  All of that is
static configuration, so each CDK construct is embedded as a concrete Lean
value recording the fields the source sets.  Deploy-time tokens (the audit
table's name and ARN, the state machine's ARN) are opaque symbols of an
inductive type, since their concrete strings exist only at deployment.

Each Step Functions state is embedded as one record holding its FINAL
configuration: the fields passed to its constructor together with the
successor set by the `.next(...)` calls and the catch edge set by the
`.add_catch(...)` calls of the source, with the source line of every such
mutation cited in the doc comment.
-/

/-- Identifiers of the eight Step Functions states constructed by the stack
(source lines 122-204).  The names follow the Python variable names. -/
inductive StateId where
  | glueRawJobTask
  | glueConformedJobTask
  | failureStatusUpdateTask
  | successStatusUpdateTask
  | failurePublishTask
  | successPublishTask
  | succeededState
  | failedState
deriving DecidableEq, Repr

/-- The kind of each state: the three CDK task classes used by the source
(`LambdaInvoke`, `SnsPublish`, `GlueStartJobRun`) and the two terminal
classes (`Succeed`, `Fail`).  In the Amazon States Language that CDK
synthesizes to, the first three are all `Task` states. -/
inductive StateKind where
  | lambdaInvokeTask
  | snsPublishTask
  | glueStartJobRunTask
  | succeedState
  | failState
deriving DecidableEq, Repr

/-- Task states (`LambdaInvoke`, `SnsPublish`, `GlueStartJobRun`) execute
work against an external service and can therefore fail at runtime; in the
Amazon States Language only such `Task` states can fail and may carry a
`Catch` field.  `Succeed` and `Fail` states cannot fail. -/
def isTaskKind : StateKind → Bool
  | .lambdaInvokeTask => true
  | .snsPublishTask => true
  | .glueStartJobRunTask => true
  | .succeedState => false
  | .failState => false

/-- The two Glue jobs handed to the stack constructor (source lines 27,
169, 187): `raw_to_conformed_job` and `conformed_to_purpose_built_job`. -/
inductive GlueJob where
  | rawToConformedJob
  | conformedToPurposeBuiltJob
deriving DecidableEq, Repr

/-- The three Lambda functions constructed by the stack (source lines 75,
98, 213). -/
inductive LambdaId where
  | failureStatusUpdate
  | successStatusUpdate
  | etlTrigger
deriving DecidableEq, Repr

/-- One Step Functions state as configured by the stack.  Optional fields
default to `none`/`[]` and are set exactly where the source sets them. -/
structure SfnState where
  sid : StateId
  kind : StateKind
  /-- Successor on the normal (non-error) transition, as set by `.next`. -/
  nextState : Option StateId := none
  /-- Target of the catch edge set by `.add_catch`, if any. -/
  catchTarget : Option StateId := none
  /-- The `result_path` argument of `.add_catch`, if any. -/
  catchResultPath : Option String := none
  /-- The `result_path` constructor argument, if any. -/
  resultPath : Option String := none
  /-- The `output_path` constructor argument, if any. -/
  outputPath : Option String := none
  /-- For `SnsPublish` states: the fixed `subject` string. -/
  snsSubject : Option String := none
  /-- For `SnsPublish` states: the JSONPath passed to
  `TaskInput.from_data_at`, giving the message body. -/
  snsMessagePath : Option String := none
  /-- For `LambdaInvoke` states: the invoked function. -/
  lambdaFunctionId : Option LambdaId := none
  /-- For `GlueStartJobRun` states: the invoked Glue job. -/
  glueJob : Option GlueJob := none
  /-- For `GlueStartJobRun` states: the `arguments` mapping passed via
  `TaskInput.from_object`, as (argument name, JSONPath source) pairs in
  source order. -/
  glueArguments : List (String × String) := []
  /-- For `GlueStartJobRun` states: the `comment` string. -/
  taskComment : Option String := none
  /-- For the `Fail` state: the `cause` constructor argument. -/
  failCause : Option String := none
  /-- For the `Fail` state: the `error` constructor argument. -/
  failError : Option String := none
deriving DecidableEq, Repr

/-- Embeds `fail_state` (source lines 122-127): a `Fail` state with the
constant strings `cause='Invalid response.'` and `error='Error'`; no other
field is set and nothing depends on the execution's input. -/
def fail_state : SfnState where
  sid := .failedState
  kind := .failState
  failCause := some "Invalid response."
  failError := some "Error"

/-- Embeds `success_state` (source line 128): a `Succeed` state constructed
with no arguments beyond its id, hence no output/result transformation. -/
def success_state : SfnState where
  sid := .succeededState
  kind := .succeedState

/-- Embeds `failure_function_task` (source lines 130-137), a `LambdaInvoke`
of `failure_function` with `result_path='$.taskresult'` and
`output_path='$'`; its successor is set to `failure_notification_task` by
`failure_function_task.next(failure_notification_task)` (line 145). -/
def failure_function_task : SfnState where
  sid := .failureStatusUpdateTask
  kind := .lambdaInvokeTask
  lambdaFunctionId := some .failureStatusUpdate
  resultPath := some "$.taskresult"
  outputPath := some "$"
  nextState := some .failurePublishTask

/-- Embeds `failure_notification_task` (source lines 138-144), an
`SnsPublish` with `subject='Job Completed'` and message
`TaskInput.from_data_at('$')`; its successor is set to `fail_state` by
`failure_notification_task.next(fail_state)` (line 146). -/
def failure_notification_task : SfnState where
  sid := .failurePublishTask
  kind := .snsPublishTask
  snsSubject := some "Job Completed"
  snsMessagePath := some "$"
  nextState := some .failedState

/-- Embeds `success_function_task` (source lines 148-155), a `LambdaInvoke`
of `success_function` with `result_path='$.taskresult'` and
`output_path='$'`; its successor is set to `success_task` by
`success_function_task.next(success_task)` (line 163). -/
def success_function_task : SfnState where
  sid := .successStatusUpdateTask
  kind := .lambdaInvokeTask
  lambdaFunctionId := some .successStatusUpdate
  resultPath := some "$.taskresult"
  outputPath := some "$"
  nextState := some .successPublishTask

/-- Embeds `success_task` (source lines 156-162), an `SnsPublish` with
`subject='Job Failed'` and message `TaskInput.from_data_at('$')`; its
successor is set to `success_state` by `success_task.next(success_state)`
(line 164). -/
def success_task : SfnState where
  sid := .successPublishTask
  kind := .snsPublishTask
  snsSubject := some "Job Failed"
  snsMessagePath := some "$"
  nextState := some .succeededState

/-- Embeds `glue_raw_task` (source lines 166-181), a `GlueStartJobRun` of
`raw_to_conformed_job` with eight arguments taken from the execution input;
its catch edge is set by
`glue_raw_task.add_catch(failure_notification_task, result_path='$.taskresult')`
(line 182) and its successor to `glue_conformed_task` by
`machine_definition = glue_raw_task.next(glue_conformed_task.next(success_task))`
(lines 202-204). -/
def glue_raw_task : SfnState where
  sid := .glueRawJobTask
  kind := .glueStartJobRunTask
  glueJob := some .rawToConformedJob
  glueArguments :=
    [("--source_key.$", "$.source_key"),
     ("--source_system_name.$", "$.source_system_name"),
     ("--table_name.$", "$.table_name"),
     ("--source_bucketname.$", "$.source_bucketname"),
     ("--base_file_name.$", "$.base_file_name"),
     ("--p_year.$", "$.p_year"),
     ("--p_month.$", "$.p_month"),
     ("--p_day.$", "$.p_day")]
  taskComment := some "Stage to Raw data load"
  catchTarget := some .failurePublishTask
  catchResultPath := some "$.taskresult"
  nextState := some .glueConformedJobTask

/-- Embeds `glue_conformed_task` (source lines 184-199), a `GlueStartJobRun`
of `conformed_to_purpose_built_job` with the same eight arguments; its catch
edge is set by
`glue_conformed_task.add_catch(failure_notification_task, result_path='$.taskresult')`
(line 200) and its successor to `success_task` by
`glue_conformed_task.next(success_task)` inside the machine definition
(lines 202-204). -/
def glue_conformed_task : SfnState where
  sid := .glueConformedJobTask
  kind := .glueStartJobRunTask
  glueJob := some .conformedToPurposeBuiltJob
  glueArguments :=
    [("--source_key.$", "$.source_key"),
     ("--source_system_name.$", "$.source_system_name"),
     ("--table_name.$", "$.table_name"),
     ("--source_bucketname.$", "$.source_bucketname"),
     ("--base_file_name.$", "$.base_file_name"),
     ("--p_year.$", "$.p_year"),
     ("--p_month.$", "$.p_month"),
     ("--p_day.$", "$.p_day")]
  taskComment := some "Raw to Conformed data load"
  catchTarget := some .failurePublishTask
  catchResultPath := some "$.taskresult"
  nextState := some .successPublishTask

/-- Maps every state id to its configured state. -/
def stateOf : StateId → SfnState
  | .glueRawJobTask => glue_raw_task
  | .glueConformedJobTask => glue_conformed_task
  | .failureStatusUpdateTask => failure_function_task
  | .successStatusUpdateTask => success_function_task
  | .failurePublishTask => failure_notification_task
  | .successPublishTask => success_task
  | .succeededState => success_state
  | .failedState => fail_state

/-- All eight state ids, in construction order of the source. -/
def allStateIds : List StateId :=
  [.failedState, .succeededState,
   .failureStatusUpdateTask, .failurePublishTask,
   .successStatusUpdateTask, .successPublishTask,
   .glueRawJobTask, .glueConformedJobTask]

/-- Embeds `machine_definition` (source lines 202-204): the chain starts at
`glue_raw_task`, so the state machine created at lines 206-211 has
`glue_raw_task` as its start state. -/
def machine_definition_start : StateId := .glueRawJobTask

/-- The outgoing graph edges of a state: its normal successor and its catch
target, if any. -/
def edgeTargets (s : SfnState) : List StateId :=
  s.nextState.toList ++ s.catchTarget.toList

/-- One round of graph reachability: keeps the current states and adds every
normal or catch successor of each of them. -/
def reachStep (cur : List StateId) : List StateId :=
  (cur ++ cur.flatMap fun i => edgeTargets (stateOf i)).dedup

/-- Iterates `reachStep` with explicit fuel. -/
def reachFrom : Nat → List StateId → List StateId
  | 0, cur => cur
  | n + 1, cur => reachFrom n (reachStep cur)

/-- The states reachable from the machine's start state along normal and
catch edges; eight rounds of fuel suffice for an eight-state graph. -/
def reachableStates : List StateId :=
  reachFrom 8 [machine_definition_start]

/-- Follows the chain of normal (`.next`) successors from an optional state,
with explicit fuel, listing the states visited in order. -/
def nextChain : Nat → Option StateId → List StateId
  | _, none => []
  | 0, some _ => []
  | n + 1, some i => i :: nextChain n (stateOf i).nextState

/-- The normal-successor chain of the state machine, starting at the start
state of `machine_definition`: the path taken when every task succeeds. -/
def successPath : List StateId :=
  nextChain 8 (some machine_definition_start)

/-- The chain of states run after a given state's failure is caught: the
catch target followed by its normal successors. -/
def catchPath (i : StateId) : List StateId :=
  nextChain 8 (stateOf i).catchTarget

/-- Deploy-time token values used in Lambda environments (source lines
82-84, 105-107, 220-223): the audit table's name and the state machine's
ARN.  `stateMachineArn` is the ARN of the single `StateMachine` the stack
creates at source lines 206-211. -/
inductive EnvVal where
  | jobAuditTableName
  | stateMachineArn
deriving DecidableEq, Repr

/-- Resources appearing in IAM policy statements: the audit table's ARN, the
stack's state machine ARN, or the wildcard `'*'` matching every resource. -/
inductive Res where
  | jobAuditTableArn
  | stateMachineArn
  | allResources
deriving DecidableEq, Repr

/-- The effect of an IAM policy statement; every statement in the source
uses `iam.Effect.ALLOW`. -/
inductive PolicyEffect where
  | allow
deriving DecidableEq, Repr

/-- One IAM policy statement as passed to `add_to_role_policy`. -/
structure PolicyStatement where
  effect : PolicyEffect
  actions : List String
  resources : List Res
deriving DecidableEq, Repr

/-- One Lambda function as configured by the stack: the code asset folder,
the environment mapping, and the policy statements added to its role, in
source order. -/
structure LambdaFunctionDef where
  codeAsset : String
  environment : List (String × EnvVal)
  roleStatements : List PolicyStatement
deriving DecidableEq, Repr

/-- Embeds `failure_function` (source lines 75-97): environment from lines
82-84 and the single role policy statement from lines 89-97. -/
def failure_function : LambdaFunctionDef where
  codeAsset := "datalake_blog_failure_status_update"
  environment := [("DYNAMODB_TABLE_NAME", .jobAuditTableName)]
  roleStatements :=
    [⟨.allow, ["dynamodb:UpdateItem"], [.jobAuditTableArn]⟩]

/-- Embeds `success_function` (source lines 98-120): environment from lines
105-107 and the single role policy statement from lines 112-120. -/
def success_function : LambdaFunctionDef where
  codeAsset := "datalake_blog_success_status_update"
  environment := [("DYNAMODB_TABLE_NAME", .jobAuditTableName)]
  roleStatements :=
    [⟨.allow, ["dynamodb:UpdateItem"], [.jobAuditTableArn]⟩]

/-- Embeds `trigger_function` (source lines 213-259): environment from lines
220-223 and the three role policy statements added at lines 228-243,
244-250 and 251-259, in that order. -/
def trigger_function : LambdaFunctionDef where
  codeAsset := "datalake_blog_trigger_load"
  environment :=
    [("DYNAMODB_TABLE_NAME", .jobAuditTableName),
     ("SFN_STATE_MACHINE_ARN", .stateMachineArn)]
  roleStatements :=
    [⟨.allow,
      ["dynamodb:PutItem", "dynamodb:DescribeTable", "dynamodb:GetItem",
       "dynamodb:Scan", "dynamodb:Query", "dynamodb:UpdateItem",
       "dynamodb:DescribeTimeToLive", "dynamodb:GetRecords"],
      [.allResources]⟩,
     ⟨.allow, ["dynamodb:ListTables"], [.allResources]⟩,
     ⟨.allow, ["states:StartExecution"], [.stateMachineArn]⟩]

/-- Modelled from the spec: the trigger handler's code (asset folder
`datalake_blog_trigger_load`, referenced at source line 219) is not part of
the sources; per the spec it writes exactly one initial Audit Record and
starts exactly one workflow execution per object-creation event. -/
structure TriggerEffect where
  auditRecordsCreated : Nat
  executionsStarted : Nat
deriving DecidableEq, Repr

/-- Modelled from the spec: the effect of one invocation of the trigger
handler on one object-creation event. -/
def trigger_handler_effect : TriggerEffect where
  auditRecordsCreated := 1
  executionsStarted := 1

/-- C1 counterexample: the normal-successor chain of the machine, starting
at its start state, is exactly `glue_raw_task`, `glue_conformed_task`, the
success publish task, `Succeeded` — the success status-update task is NOT
on it, because `machine_definition` (source lines 202-204) chains
`glue_conformed_task` directly to `success_task`, the `SnsPublish`, and not
to `success_function_task`. -/
theorem success_path_skips_status_update :
    successPath =
      [StateId.glueRawJobTask, StateId.glueConformedJobTask,
       StateId.successPublishTask, StateId.succeededState] ∧
    StateId.successStatusUpdateTask ∉ successPath := by
  decide

/-- C1 amended: the success path visits `glue_raw_task`, then
`glue_conformed_task`, then the success notification-publish task, then
`Succeeded`; the success status-update task's own successor is the success
publish task (set at source line 163), but the conformed job task's
successor is the publish task directly, so the status-update task is not on
the normal-successor chain. -/
theorem success_path_order :
    (stateOf .glueConformedJobTask).nextState = some StateId.successPublishTask ∧
    (stateOf .successPublishTask).nextState = some StateId.succeededState ∧
    (stateOf .successStatusUpdateTask).nextState = some StateId.successPublishTask ∧
    successPath =
      [StateId.glueRawJobTask, StateId.glueConformedJobTask,
       StateId.successPublishTask, StateId.succeededState] := by
  decide

/-- C2 counterexample: the catch edge of `glue_raw_task` (source line 182)
targets the failure notification-publish task directly, and the chain run
after a caught failure is exactly the failure publish task then `Failed` —
the failure status-update task is not on it. -/
theorem catch_path_skips_status_update :
    (stateOf .glueRawJobTask).catchTarget = some StateId.failurePublishTask ∧
    catchPath .glueRawJobTask = [StateId.failurePublishTask, StateId.failedState] ∧
    StateId.failureStatusUpdateTask ∉ catchPath .glueRawJobTask := by
  decide

/-- C2 amended: both job task states carry a catch edge, but each catch edge
targets the failure notification-publish task DIRECTLY (source lines 182,
200, both with `result_path='$.taskresult'`), which then transitions to
`Failed`; the failure status-update task precedes the notification task in
its own chain (source line 145) but is not on any catch path. -/
theorem catch_edges_route_to_notification :
    (stateOf .glueRawJobTask).catchTarget = some StateId.failurePublishTask ∧
    (stateOf .glueConformedJobTask).catchTarget = some StateId.failurePublishTask ∧
    (stateOf .glueRawJobTask).catchResultPath = some "$.taskresult" ∧
    (stateOf .glueConformedJobTask).catchResultPath = some "$.taskresult" ∧
    catchPath .glueRawJobTask = [StateId.failurePublishTask, StateId.failedState] ∧
    catchPath .glueConformedJobTask = [StateId.failurePublishTask, StateId.failedState] ∧
    (stateOf .failureStatusUpdateTask).nextState = some StateId.failurePublishTask := by
  decide

/-- C3: the success-path `SnsPublish` task carries the fixed subject
"Job Failed" and the failure-path `SnsPublish` task the fixed subject
"Job Completed" (swapped relative to their paths), and both publish the full
current workflow document, `TaskInput.from_data_at` at JSONPath `$`. -/
theorem sns_subjects_swapped :
    success_task.snsSubject = some "Job Failed" ∧
    failure_notification_task.snsSubject = some "Job Completed" ∧
    success_task.snsMessagePath = some "$" ∧
    failure_notification_task.snsMessagePath = some "$" := by
  decide

/-- C4 counterexample: the success path reaches the `Succeeded` terminal
state while containing no `LambdaInvoke` state at all, so in particular no
status-update task runs on it — the executed path of a fully successful run
reaches a terminal state without the audit record's status ever being
updated by a status-update task. -/
theorem terminal_reached_without_status_update :
    StateId.succeededState ∈ successPath ∧
    (∀ i ∈ successPath, (stateOf i).kind ≠ StateKind.lambdaInvokeTask) ∧
    StateId.successStatusUpdateTask ∉ successPath ∧
    StateId.failureStatusUpdateTask ∉ successPath := by
  decide

/-- C4 amended: evaluating the workflow graph shows both terminal states are
reachable from the start state, while neither status-update task is
reachable along any combination of normal and catch edges; so no executed
path can update the audit record's status via a status-update task before
reaching a terminal state, contradicting the claimed invariant (the
trigger handler, modelled from the spec, does create exactly one audit
record per event). -/
theorem status_update_tasks_unreachable :
    trigger_handler_effect.auditRecordsCreated = 1 ∧
    StateId.succeededState ∈ reachableStates ∧
    StateId.failedState ∈ reachableStates ∧
    StateId.successStatusUpdateTask ∉ reachableStates ∧
    StateId.failureStatusUpdateTask ∉ reachableStates := by
  decide

/-- C5 counterexample: the success notification-publish task is a `Task`
state (kind `SnsPublish`, which can fail at runtime), lies in the reachable
workflow graph, and carries no catch edge — so not every fallible task
state has error handling. -/
theorem publish_task_lacks_catch :
    isTaskKind (stateOf .successPublishTask).kind = true ∧
    StateId.successPublishTask ∈ reachableStates ∧
    (stateOf .successPublishTask).catchTarget = none := by
  decide

/-- C5 amended: exactly the two batch-job task states carry catch edges,
each targeting the failure notification-publish task; the notification and
status-update task states carry none; and among all constructed states
there are exactly two non-task (terminal) states, one `Succeed` and one
`Fail`. -/
theorem glue_tasks_catch_and_two_terminals :
    (∀ i ∈ allStateIds, (stateOf i).kind = StateKind.glueStartJobRunTask →
      (stateOf i).catchTarget = some StateId.failurePublishTask) ∧
    (∀ i ∈ allStateIds, (stateOf i).kind ≠ StateKind.glueStartJobRunTask →
      (stateOf i).catchTarget = none) ∧
    allStateIds.filter (fun i => isTaskKind (stateOf i).kind = false) =
      [StateId.failedState, StateId.succeededState] ∧
    (stateOf .succeededState).kind = StateKind.succeedState ∧
    (stateOf .failedState).kind = StateKind.failState := by
  decide

/-- C6: the two `GlueStartJobRun` task states pass equal argument mappings
to their Glue jobs, and that mapping is exactly the eight workflow-input
fields, each forwarded verbatim from the same-named path of the input
document. -/
theorem glue_arguments_equal_and_verbatim :
    glue_raw_task.glueArguments = glue_conformed_task.glueArguments ∧
    glue_raw_task.glueArguments =
      [("--source_key.$", "$.source_key"),
       ("--source_system_name.$", "$.source_system_name"),
       ("--table_name.$", "$.table_name"),
       ("--source_bucketname.$", "$.source_bucketname"),
       ("--base_file_name.$", "$.base_file_name"),
       ("--p_year.$", "$.p_year"),
       ("--p_month.$", "$.p_month"),
       ("--p_day.$", "$.p_day")] := by
  decide

/-- C7: the `Fail` terminal state is built from the constant strings
`cause='Invalid response.'` and `error='Error'` — `fail_state` is a closed
definition, so neither depends on the caught error or on any workflow
input — and the `Succeed` terminal state sets no output or result
transformation. -/
theorem terminal_states_fixed :
    fail_state.failCause = some "Invalid response." ∧
    fail_state.failError = some "Error" ∧
    success_state.outputPath = none ∧
    success_state.resultPath = none := by
  decide

/-- C8: all three Lambda functions receive the audit table's name under the
single variable `DYNAMODB_TABLE_NAME`; the trigger function additionally
receives the state machine's ARN under `SFN_STATE_MACHINE_ARN`; and neither
status-update function's environment carries the state machine ARN. -/
theorem lambda_environments :
    failure_function.environment =
      [("DYNAMODB_TABLE_NAME", EnvVal.jobAuditTableName)] ∧
    success_function.environment =
      [("DYNAMODB_TABLE_NAME", EnvVal.jobAuditTableName)] ∧
    trigger_function.environment =
      [("DYNAMODB_TABLE_NAME", EnvVal.jobAuditTableName),
       ("SFN_STATE_MACHINE_ARN", EnvVal.stateMachineArn)] ∧
    (∀ p ∈ failure_function.environment, p.2 ≠ EnvVal.stateMachineArn) ∧
    (∀ p ∈ success_function.environment, p.2 ≠ EnvVal.stateMachineArn) := by
  decide

/-- C9: each status-update function's role carries exactly one statement,
allowing only `dynamodb:UpdateItem` on the audit table's ARN, while the
trigger function's role carries a statement allowing its eight DynamoDB
actions on every resource (`'*'`) and a statement allowing
`dynamodb:ListTables` on every resource. -/
theorem role_policies_asymmetric :
    failure_function.roleStatements =
      [⟨PolicyEffect.allow, ["dynamodb:UpdateItem"], [Res.jobAuditTableArn]⟩] ∧
    success_function.roleStatements =
      [⟨PolicyEffect.allow, ["dynamodb:UpdateItem"], [Res.jobAuditTableArn]⟩] ∧
    trigger_function.roleStatements =
      [⟨PolicyEffect.allow,
        ["dynamodb:PutItem", "dynamodb:DescribeTable", "dynamodb:GetItem",
         "dynamodb:Scan", "dynamodb:Query", "dynamodb:UpdateItem",
         "dynamodb:DescribeTimeToLive", "dynamodb:GetRecords"],
        [Res.allResources]⟩,
       ⟨PolicyEffect.allow, ["dynamodb:ListTables"], [Res.allResources]⟩,
       ⟨PolicyEffect.allow, ["states:StartExecution"], [Res.stateMachineArn]⟩] := by
  decide

/-- C10: exactly one of the trigger function's role statements mentions
`states:StartExecution`, and its resource list is exactly the ARN of the
single state machine created by this stack — neither the wildcard `'*'` nor
any other resource appears in it. -/
theorem start_execution_scoped_to_machine :
    trigger_function.roleStatements.filter
        (fun s => s.actions.contains "states:StartExecution") =
      [⟨PolicyEffect.allow, ["states:StartExecution"], [Res.stateMachineArn]⟩] ∧
    (∀ s ∈ trigger_function.roleStatements,
      "states:StartExecution" ∈ s.actions → s.resources = [Res.stateMachineArn]) := by
  decide
